import Mathlib

/-!
Verification development for the radio-station coverage sampling map app
(src/app/app.py). The file shallowly embeds the data handling of
`load_data` (buffer filtering and the pandas left merge of the centroids
layer against the grid-cells layer) and the map assembly of
`create_station_map` (legend synthesis, per-station feature groups, grid
styling, markers, layer control), and proves or refutes the specified
properties about them.
-/

/-! ## Dataframe model for the Join Stage (app.py lines 42-47)

The pandas layers involved in the merge are modelled as frames: every row
carries the two join-key columns `station_name` and `grid_id` explicitly,
plus a list of values for the remaining (non-key) columns, aligned with the
frame-level column-name list `cols`. A cell holds `Option String`:
`none` models NaN / missing.
-/

structure Row where
  station_name : String
  grid_id : String
  vals : List (Option String)
deriving DecidableEq

structure Frame where
  cols : List String
  rows : List Row
deriving DecidableEq

def rowKey (r : Row) : String × String := (r.station_name, r.grid_id)

/-- Column renaming used by a pandas merge: a non-key column shared by both
sides gets the suffix of its side appended (default suffixes _x and _y). -/
def suffixCols (own other : List String) (suf : String) : List String :=
  own.map (fun c => if other.contains c then c ++ suf else c)

/-- Value of column `c` of `row` in frame `f` (none when the column is
absent or the cell is NaN). -/
def cellValue (f : Frame) (row : Row) (c : String) : Option String :=
  match f.cols.findIdx? (fun x => x == c) with
  | some i => (row.vals.get? i).bind id
  | none => none

/-- Pandas left merge on the composite key (station_name, grid_id): each
left row is repeated once per matching right row, key order of the left
frame preserved; a left row without a match keeps its fields and gets NaN
for every borrowed column; overlapping non-key columns are suffixed. -/
def mergeLeft (l r : Frame) : Frame :=
  { cols := suffixCols l.cols r.cols "_x" ++ suffixCols r.cols l.cols "_y",
    rows := l.rows.flatMap (fun row =>
      let ms := r.rows.filter (fun rr => rowKey rr == rowKey row)
      if ms.isEmpty then
        [{ row with vals := row.vals ++ List.replicate r.cols.length none }]
      else
        ms.map (fun rr => { row with vals := row.vals ++ rr.vals })) }

/-- Column selection grid_cells[[station_name, grid_id, nearest_road_maps_link]]
from app.py line 44: keys are kept, and the single borrowed attribute column
is retained. -/
def selectLinkCols (g : Frame) : Frame :=
  { cols := ["nearest_road_maps_link"],
    rows := g.rows.map (fun row =>
      { row with vals := [cellValue g row "nearest_road_maps_link"] }) }

/-- The Join Stage of load_data (app.py lines 43-47): left merge of the
centroids frame against the selected grid-cells columns on
(station_name, grid_id). -/
def joinStage (centroids grid_cells : Frame) : Frame :=
  mergeLeft centroids (selectLinkCols grid_cells)

/-- The borrowed attribute a centroid row receives: the
nearest_road_maps_link value of the first grid-cell row with the same
(station_name, grid_id) key, or none when no such row exists. -/
def borrowedLink (g : Frame) (row : Row) : Option String :=
  match g.rows.find? (fun rr => rowKey rr == rowKey row) with
  | some rr => cellValue g rr "nearest_road_maps_link"
  | none => none

/-! ## Typed records for load_data and create_station_map

The map-assembly code accesses a fixed set of columns of each layer; those
rows are modelled as structures. Geometry is an opaque token
(`Option String`, none = null geometry). -/

structure StationLoc where
  station_name : String
  color : String
  geometry : Option String
deriving DecidableEq

structure BufferRow where
  station_name : String
  buffer_km : Nat
  geometry : Option String
deriving DecidableEq

structure GridCellRow where
  station_name : String
  grid_id : String
  cluster_type : String
  geometry : Option String
deriving DecidableEq

structure CentroidRow where
  station_name : String
  grid_id : String
  cluster_type : String
  geometry : Option String
  nearest_road_maps_link : Option String
  centroid_maps_link : Option String
deriving DecidableEq

structure VillageRow where
  station_name : String
  grid_id : String
  geometry : Option String
  nearest_address_full : String
  village : String
  district : String
  region : String
deriving DecidableEq

structure RoadRow where
  station_name : String
  geometry : Option String
deriving DecidableEq

/-- The enum_layers dict consumed by create_station_map (road_points is
loaded but never used by the map builder). -/
structure EnumLayers where
  grid_cells : List GridCellRow
  centroids : List CentroidRow
  road_points : List RoadRow
  village_points : List VillageRow
deriving DecidableEq

/-- The file contents read by load_data (app.py lines 28-37). The enum
layers that take part in the merge are kept in frame form. -/
structure RawData where
  station_loc : List StationLoc
  station_buffers : List BufferRow
  sampling_clusters : List String
  grid_cells : Frame
  centroids : Frame
  road_points : Frame
  village_points : Frame
deriving DecidableEq

structure LoadedData where
  station_loc : List StationLoc
  station_buffers : List BufferRow
  sampling_clusters : List String
  grid_cells : Frame
  centroids : Frame
  road_points : Frame
  village_points : Frame
deriving DecidableEq

/-- load_data (app.py lines 24-53): reading the files may fail (modelled by
the `none` input); any exception is caught by the blanket handler, reported
only as a streamlit text message, and turned into the sentinel result
`None, None, None, None` (modelled by the `none` output, which carries no
information about the offending file). On success the buffers are filtered
to buffer_km == 25 (line 40) and the centroids are joined against the
grid cells (lines 43-47). -/
def load_data (raw : Option RawData) : Option LoadedData :=
  match raw with
  | none => none
  | some r =>
    some { station_loc := r.station_loc,
           station_buffers := r.station_buffers.filter (fun b => b.buffer_km == 25),
           sampling_clusters := r.sampling_clusters,
           grid_cells := r.grid_cells,
           centroids := joinStage r.centroids r.grid_cells,
           road_points := r.road_points,
           village_points := r.village_points }

/-! ## Style resolution (app.py lines 127-133) -/

/-- The style dict produced by the grid-cell style_function. fillOpacity is
0 in the source; it is kept as a Nat. -/
structure LeafletStyle where
  fillColor : Option String
  color : String
  weight : Nat
  fillOpacity : Nat
  dashArray : Option String
deriving DecidableEq

/-- The body of the style_function lambda at app.py lines 127-133: no fill,
outline in the given station color, weight 2, fill opacity 0, and a dashed
outline exactly when cluster_type equals replacement (every other value,
known or unknown, silently takes the else branch). -/
def gridStyleFunction (station_color : String) (feature : GridCellRow) : LeafletStyle :=
  { fillColor := none,
    color := station_color,
    weight := 2,
    fillOpacity := 0,
    dashArray := if feature.cluster_type == "replacement" then some "5,5" else none }

/-- A deferred folium style_function. The lambda at lines 127-133 reads the
Python loop variable station_color when folium invokes it at render time,
after the loop has completed: constructor readsStationColorCell. The
constructor constColor models a callback closed over a fixed color value
instead; the source never builds one, so proving which constructor the
builder installs is meaningful. -/
inductive StyleThunk where
  | readsStationColorCell : StyleThunk
  | constColor : String → StyleThunk
deriving DecidableEq

/-- Invoke a deferred style_function at render time, when the loop variable
station_color holds `cell` (its final value). -/
def evalStyleThunk : StyleThunk → String → GridCellRow → LeafletStyle
  | StyleThunk.readsStationColorCell, cell, f => gridStyleFunction cell f
  | StyleThunk.constColor c, _, f => gridStyleFunction c f

/-! ## Legend synthesis (app.py lines 84-112) -/

inductive LegendEntry where
  | stationsHeader : LegendEntry
  | stationRow : String → String → LegendEntry
  | gridCellsHeader : LegendEntry
  | gridCellsKey : LegendEntry
  | villageKey : LegendEntry
deriving DecidableEq

/-- The legend HTML assembled at lines 84-110, abstracted to its entries:
a header, one colored row per station row of the filtered station
locations, the grid-cells key, and the village key exactly when the whole
village_points layer is non-empty and not entirely null-geometry
(line 105); the check does not depend on the station selection. -/
def buildLegend (station_locs : List StationLoc) (village_points : List VillageRow) :
    List LegendEntry :=
  [LegendEntry.stationsHeader]
    ++ station_locs.map (fun r => LegendEntry.stationRow r.color r.station_name)
    ++ [LegendEntry.gridCellsHeader, LegendEntry.gridCellsKey]
    ++ (if !village_points.isEmpty
          && !(village_points.all (fun v => v.geometry.isNone)) then
          [LegendEntry.villageKey]
        else [])

/-! ## Map document model (create_station_map, app.py lines 56-222) -/

inductive GroupChild where
  | gridLayer : String → List GridCellRow → StyleThunk → GroupChild
  | centroidMarker : CentroidRow → String → GroupChild
  | villageMarker : VillageRow → GroupChild
  | stationMarker : String → String → Option String → GroupChild
  | bufferPolygon : String → Nat → GroupChild
deriving DecidableEq

structure FeatureGroup where
  name : String
  children : List GroupChild
deriving DecidableEq

inductive MapChild where
  | tileLayer : String → MapChild
  | legendElement : List LegendEntry → MapChild
  | featureGroup : FeatureGroup → MapChild
  | marker : String → String → Option String → MapChild
  | layerControl : Bool → MapChild
deriving DecidableEq

/-- The assembled folium map: its ordered children, plus the value the
loop variable station_color holds when the rendering backend invokes the
deferred style callbacks (the render happens after create_station_map
returns, so this is the value left by the last loop iteration). -/
structure MapDoc where
  children : List MapChild
  station_color_cell : String
deriving DecidableEq

/-- Color lookup at app.py line 120:
station_locs[station_locs[station_name] == station][color].iloc[0].
The source raises IndexError when the station has no location row; the
model totalizes that case with an empty color, and the theorems about the
assembled document assume every selected station has a location row. -/
def stationColorOf (station_locs : List StationLoc) (s : String) : String :=
  ((station_locs.filter (fun r => r.station_name == s)).headD
      { station_name := s, color := "", geometry := none }).color

/-- One loop iteration of app.py lines 116-210: the feature group for one
station, holding its grid-cell GeoJson layer (with the deferred
style_function), its centroid markers (rows of the station with non-null
geometry, lines 138-164), its village markers (same filter, lines 167-196),
and finally the station marker itself (lines 198-210), added to the group,
not to the map. -/
def mkStationGroup (s : String) (station_locs : List StationLoc) (enum : EnumLayers) :
    FeatureGroup :=
  let station_color := stationColorOf station_locs s
  let station_grids := enum.grid_cells.filter (fun gc => gc.station_name == s)
  let station_centroids :=
    enum.centroids.filter (fun c => c.station_name == s && c.geometry.isSome)
  let station_villages :=
    enum.village_points.filter (fun v => v.station_name == s && v.geometry.isSome)
  let station_loc :=
    (station_locs.filter (fun r => r.station_name == s)).headD
      { station_name := s, color := "", geometry := none }
  { name := s,
    children :=
      GroupChild.gridLayer (s ++ "_grids") station_grids StyleThunk.readsStationColorCell
        :: (station_centroids.map (fun c => GroupChild.centroidMarker c station_color)
            ++ station_villages.map GroupChild.villageMarker
            ++ [GroupChild.stationMarker station_loc.station_name station_color
                  station_loc.geometry]) }

/-- The loop at app.py lines 116-210: builds the station groups in
selection order while repeatedly rebinding the loop variable
station_color; returns the groups and the final value of that variable. -/
def buildGroups (station_names : List String) (station_locs : List StationLoc)
    (enum : EnumLayers) : List FeatureGroup × String :=
  station_names.foldl
    (fun acc s => (acc.1 ++ [mkStationGroup s station_locs enum],
                   stationColorOf station_locs s))
    ([], "")

/-- create_station_map (app.py lines 56-222): filters the station locations
to the selection, adds the two tile layers, the legend element, every
station feature group (in selection order), and the layer control. No
buffer data reaches this function: its parameters are the selection, the
station locations and the enum layers only. -/
def create_station_map (station_names : List String) (station_loc_gdf : List StationLoc)
    (enum_layers : EnumLayers) : MapDoc :=
  let station_locs :=
    station_loc_gdf.filter (fun r => station_names.contains r.station_name)
  let bg := buildGroups station_names station_locs enum_layers
  { children :=
      [MapChild.tileLayer "OpenStreetMap",
       MapChild.tileLayer "Satellite",
       MapChild.legendElement (buildLegend station_locs enum_layers.village_points)]
        ++ bg.1.map MapChild.featureGroup
        ++ [MapChild.layerControl false],
    station_color_cell := bg.2 }

/-! ## Observers on the assembled document -/

def extractGroup : MapChild → Option FeatureGroup
  | MapChild.featureGroup g => some g
  | _ => none

def featureGroupsOf (d : MapDoc) : List FeatureGroup :=
  d.children.filterMap extractGroup

def extractBufferKm : GroupChild → Option Nat
  | GroupChild.bufferPolygon _ k => some k
  | _ => none

/-- All buffer_km values of coverage-buffer polygons occurring in any
feature group of the document, in document order. -/
def bufferGroupKms (d : MapDoc) : List Nat :=
  ((featureGroupsOf d).map (fun g => g.children.filterMap extractBufferKm)).flatten

def isStationMarkerChild : GroupChild → Bool
  | GroupChild.stationMarker _ _ _ => true
  | _ => false

def isVillageMarkerChild : GroupChild → Bool
  | GroupChild.villageMarker _ => true
  | _ => false

def isTopLevelMarker : MapChild → Bool
  | MapChild.marker _ _ _ => true
  | _ => false

/-- Number of markers attached directly to the map, outside every feature
group. -/
def topLevelMarkerCount (d : MapDoc) : Nat :=
  (d.children.filter isTopLevelMarker).length

/-- Total number of station markers sitting inside feature groups. -/
def groupedStationMarkerCount (d : MapDoc) : Nat :=
  ((featureGroupsOf d).map (fun g => (g.children.filter isStationMarkerChild).length)).sum

/-- Station markers still visible when only the groups named in `active`
are toggled on: top-level markers plus the markers of the active groups. -/
def visibleStationMarkerCount (d : MapDoc) (active : List String) : Nat :=
  topLevelMarkerCount d
    + (((featureGroupsOf d).filter (fun g => active.contains g.name)).map
        (fun g => (g.children.filter isStationMarkerChild).length)).sum

def extractLegend : MapChild → Option (List LegendEntry)
  | MapChild.legendElement es => some es
  | _ => none

def legendEntriesOf (d : MapDoc) : List LegendEntry :=
  (d.children.filterMap extractLegend).flatten

def isVillageKey : LegendEntry → Bool
  | LegendEntry.villageKey => true
  | _ => false

def villageKeyCount (d : MapDoc) : Nat :=
  ((legendEntriesOf d).filter isVillageKey).length

/-- Total number of village markers actually placed in the document. -/
def villageMarkerCount (d : MapDoc) : Nat :=
  ((featureGroupsOf d).map (fun g => (g.children.filter isVillageMarkerChild).length)).sum

/-! ## Generic list helpers -/

theorem filterMap_map_none {α β γ : Type} (l : List α) (f : α → β) (p : β → Option γ)
    (h : ∀ a, p (f a) = none) : (l.map f).filterMap p = [] := by
  induction l with
  | nil => rfl
  | cons a t ih => simp [List.filterMap_cons, h, ih]

theorem filter_map_false {α β : Type} (l : List α) (f : α → β) (p : β → Bool)
    (h : ∀ a, p (f a) = false) : (l.map f).filter p = [] := by
  induction l with
  | nil => rfl
  | cons a t ih => simp [List.filter_cons, h, ih]

theorem flatMap_singleton_eq_map {α β : Type} (l : List α) (f : α → β) :
    (l.flatMap fun x => [f x]) = l.map f := by
  induction l with
  | nil => rfl
  | cons a t ih => simp [List.flatMap_cons, ih]

theorem flatten_map_nil {α β : Type} (l : List α) :
    (l.map fun _ => ([] : List β)).flatten = [] := by
  induction l with
  | nil => rfl
  | cons a t ih => simp [ih]

theorem getLastD_default_irrel {α : Type} (a : α) (l : List α) (d e : α) :
    (a :: l).getLastD d = (a :: l).getLastD e := by
  rw [List.getLastD_eq_getLast?, List.getLastD_eq_getLast?]
  cases h : (a :: l).getLast? with
  | none => simp [List.getLast?_eq_none_iff] at h
  | some x => rfl

/-! ## Example data used by witnesses and counterexamples -/

def exLocs : List StationLoc :=
  [{ station_name := "A", color := "red", geometry := some "ptA" },
   { station_name := "B", color := "blue", geometry := some "ptB" }]

def exEnum : EnumLayers :=
  { grid_cells :=
      [{ station_name := "A", grid_id := "g1", cluster_type := "main",
         geometry := some "polyA1" },
       { station_name := "A", grid_id := "g2", cluster_type := "replacement",
         geometry := some "polyA2" },
       { station_name := "B", grid_id := "g3", cluster_type := "main",
         geometry := some "polyB1" }],
    centroids :=
      [{ station_name := "A", grid_id := "g1", cluster_type := "main",
         geometry := some "cA1", nearest_road_maps_link := some "roadA1",
         centroid_maps_link := some "mapsA1" }],
    road_points := [],
    village_points :=
      [{ station_name := "B", grid_id := "g3", geometry := some "vB",
         nearest_address_full := "addrB", village := "vilB", district := "distB",
         region := "regB" }] }

/-- Document built for the selection consisting of station A only. The
village point of station B is outside the selection, so no village marker
is rendered. -/
def exDocA : MapDoc := create_station_map ["A"] exLocs exEnum

def exBogusRow : GridCellRow :=
  { station_name := "A", grid_id := "g9", cluster_type := "bogus", geometry := none }

def exMainRowG : GridCellRow :=
  { station_name := "A", grid_id := "g1", cluster_type := "main", geometry := some "p1" }

def exReplRowG : GridCellRow :=
  { station_name := "A", grid_id := "g2", cluster_type := "replacement",
    geometry := some "p2" }

def exCentroidsFrame : Frame :=
  { cols := ["cluster_type"],
    rows := [{ station_name := "A", grid_id := "g1", vals := [some "main"] },
             { station_name := "A", grid_id := "g2", vals := [some "replacement"] }] }

def exGridFrame : Frame :=
  { cols := ["nearest_road_maps_link"],
    rows := [{ station_name := "A", grid_id := "g1", vals := [some "L1"] }] }

def exOneCentroidFrame : Frame :=
  { cols := [], rows := [{ station_name := "A", grid_id := "g1", vals := [] }] }

def exDupGridFrame : Frame :=
  { cols := ["nearest_road_maps_link"],
    rows := [{ station_name := "A", grid_id := "g1", vals := [some "L1"] },
             { station_name := "A", grid_id := "g1", vals := [some "L2"] }] }

/-! ## Join Stage lemmas -/

theorem filter_key_eq_find (rrows : List Row) (k : String × String)
    (h : (rrows.map rowKey).Nodup) :
    rrows.filter (fun rr => rowKey rr == k)
      = (rrows.find? (fun rr => rowKey rr == k)).toList := by
  induction rrows with
  | nil => rfl
  | cons a t ih =>
    rw [List.map_cons, List.nodup_cons] at h
    obtain ⟨ha, ht⟩ := h
    by_cases hk : rowKey a = k
    · have hbeq : (rowKey a == k) = true := beq_iff_eq.mpr hk
      have ht0 : t.filter (fun rr => rowKey rr == k) = [] := by
        apply List.filter_eq_nil_iff.mpr
        intro rr hrr
        subst hk
        simp only [beq_iff_eq]
        intro hcontra
        exact ha (hcontra ▸ List.mem_map_of_mem rowKey hrr)
      rw [List.filter_cons, List.find?_cons]
      simp [hbeq, ht0]
    · have hbeq : (rowKey a == k) = false := beq_eq_false_iff_ne.mpr hk
      rw [List.filter_cons, List.find?_cons]
      simp [hbeq, ih ht]

theorem selectLink_keys (g : Frame) :
    (selectLinkCols g).rows.map rowKey = g.rows.map rowKey := by
  simp only [selectLinkCols, List.map_map]
  rfl

theorem selectLink_find (g : Frame) (k : String × String) :
    (selectLinkCols g).rows.find? (fun rr => rowKey rr == k)
      = (g.rows.find? (fun rr => rowKey rr == k)).map
          (fun r0 => { r0 with vals := [cellValue g r0 "nearest_road_maps_link"] }) := by
  show (g.rows.map _).find? _ = _
  rw [List.find?_map]
  rfl

/-- Claim C5: the Join Stage of load_data is a left join on
(station_name, grid_id). When the grid-cell keys are unique, the output
consists of exactly the input centroid rows, in order, each extended with
the single borrowed attribute (the matching nearest_road_maps_link value,
or none when no grid cell matches); cardinality is preserved, and when the
centroid keys are also unique the output has no duplicate rows. -/
theorem joinStage_is_left_join (c g : Frame)
    (hg : (g.rows.map rowKey).Nodup) (hc : (c.rows.map rowKey).Nodup) :
    (joinStage c g).rows
        = c.rows.map (fun row => { row with vals := row.vals ++ [borrowedLink g row] })
      ∧ (joinStage c g).rows.length = c.rows.length
      ∧ (joinStage c g).rows.Nodup := by
  have hg' : ((selectLinkCols g).rows.map rowKey).Nodup := by
    rw [selectLink_keys]; exact hg
  have key : ∀ row : Row,
      (if ((selectLinkCols g).rows.filter (fun rr => rowKey rr == rowKey row)).isEmpty then
         [{ row with vals := row.vals ++ List.replicate (selectLinkCols g).cols.length none }]
       else ((selectLinkCols g).rows.filter (fun rr => rowKey rr == rowKey row)).map
              (fun rr => { row with vals := row.vals ++ rr.vals }))
      = [{ row with vals := row.vals ++ [borrowedLink g row] }] := by
    intro row
    rw [filter_key_eq_find _ _ hg', selectLink_find]
    cases hf : g.rows.find? (fun rr => rowKey rr == rowKey row) with
    | none => simp [borrowedLink, hf, selectLinkCols]
    | some r0 => simp [borrowedLink, hf]
  have hrows : (joinStage c g).rows
      = c.rows.map (fun row => { row with vals := row.vals ++ [borrowedLink g row] }) := by
    have hflat : (joinStage c g).rows
        = c.rows.flatMap
            (fun row => [{ row with vals := row.vals ++ [borrowedLink g row] }]) := by
      show c.rows.flatMap _ = _
      congr 1
      funext row
      exact key row
    rw [hflat, flatMap_singleton_eq_map]
  refine ⟨hrows, by rw [hrows, List.length_map], ?_⟩
  have hkeys : (joinStage c g).rows.map rowKey = c.rows.map rowKey := by
    rw [hrows, List.map_map]
    rfl
  have : ((joinStage c g).rows.map rowKey).Nodup := by rw [hkeys]; exact hc
  exact this.of_map rowKey

/-- Witness for C5 at a concrete pair of frames: two centroids, one
matching grid cell; the joined frame keeps both rows in order, borrows L1
for g1 and none for g2. -/
theorem joinStage_is_left_join_witness :
    ((exGridFrame.rows.map rowKey).Nodup ∧ (exCentroidsFrame.rows.map rowKey).Nodup)
      ∧ ((joinStage exCentroidsFrame exGridFrame).rows
            = exCentroidsFrame.rows.map
                (fun row => { row with vals := row.vals ++ [borrowedLink exGridFrame row] })
          ∧ (joinStage exCentroidsFrame exGridFrame).rows.length
              = exCentroidsFrame.rows.length
          ∧ (joinStage exCentroidsFrame exGridFrame).rows.Nodup) :=
  ⟨⟨by decide, by decide⟩,
   joinStage_is_left_join exCentroidsFrame exGridFrame (by decide) (by decide)⟩

theorem joinStage_cols_length (c g : Frame) :
    (joinStage c g).cols.length = c.cols.length + 1 := by
  simp [joinStage, mergeLeft, selectLinkCols, suffixCols]

/-- Claim C6 (amended): the Join Stage is never idempotent. Each
application appends a borrowed-link column (pandas suffixes an already
present nearest_road_maps_link with _x and _y), so joining twice always
yields a frame with one more column than joining once. -/
theorem joinStage_not_idempotent (c g : Frame) :
    joinStage (joinStage c g) g ≠ joinStage c g := by
  intro h
  have h1 := joinStage_cols_length (joinStage c g) g
  have h2 := joinStage_cols_length c g
  rw [h] at h1
  omega

/-- Counterexample for C6 as stated: at a concrete centroid frame and grid
frame, joining twice differs from joining once (the borrowed column is
duplicated as nearest_road_maps_link_x and nearest_road_maps_link_y). -/
theorem join_twice_differs_from_join_once :
    joinStage (joinStage exCentroidsFrame exGridFrame) exGridFrame
      ≠ joinStage exCentroidsFrame exGridFrame := by
  decide

/-! ## Style resolution claims -/

/-- Claim C2 (amended): an out-of-table cluster_type does not fail; the
style_function silently takes the solid else branch, so any value other
than replacement receives exactly the style of main. There is no
StyleResolutionError in the code, and no buffer_km style table exists at
all (buffers are never styled or rendered). -/
theorem grid_style_unknown_cluster_type_defaults
    (color : String) (f : GridCellRow) (h : f.cluster_type ≠ "replacement") :
    gridStyleFunction color f = gridStyleFunction color { f with cluster_type := "main" } := by
  have hb : (f.cluster_type == "replacement") = false := beq_eq_false_iff_ne.mpr h
  have hm : (("main" : String) == "replacement") = false := by decide
  simp [gridStyleFunction, hb, hm]

/-- Witness for C2 (amended) at the concrete unknown value bogus. -/
theorem grid_style_unknown_cluster_type_defaults_witness :
    exBogusRow.cluster_type ≠ "replacement"
      ∧ gridStyleFunction "red" exBogusRow
          = gridStyleFunction "red" { exBogusRow with cluster_type := "main" } :=
  ⟨by decide, grid_style_unknown_cluster_type_defaults "red" exBogusRow (by decide)⟩

/-- Counterexample for C2 as stated: resolving the out-of-table
cluster_type bogus succeeds and returns the very style of a main feature
instead of failing with an error naming the value. -/
theorem style_resolution_silently_succeeds_on_unknown_value :
    gridStyleFunction "red" exBogusRow = gridStyleFunction "red" exMainRowG := by
  decide

/-- Claim C3 (amended): style resolution for cluster_type is a function of
the cluster_type value and the enclosing station color; main and
replacement produce distinct styles, but they differ only in the dash
pattern (main solid, replacement dashed 5,5) — the fill opacity is 0 for
both, not higher for main. -/
theorem cluster_type_styles_differ_only_in_dash (color : String) (f : GridCellRow) :
    (gridStyleFunction color { f with cluster_type := "main" }).dashArray = none
      ∧ (gridStyleFunction color { f with cluster_type := "replacement" }).dashArray
          = some "5,5"
      ∧ (gridStyleFunction color { f with cluster_type := "main" }).fillOpacity
          = (gridStyleFunction color { f with cluster_type := "replacement" }).fillOpacity
      ∧ gridStyleFunction color { f with cluster_type := "main" }
          ≠ gridStyleFunction color { f with cluster_type := "replacement" } := by
  have hm : (("main" : String) == "replacement") = false := by decide
  have hr : (("replacement" : String) == "replacement") = true := by decide
  refine ⟨?_, ?_, ?_, ?_⟩ <;> simp [gridStyleFunction, hm, hr]

/-- Counterexample for C3 as stated: at concrete main and replacement
features, the main style does not have higher opacity — both fill
opacities are 0. -/
theorem main_opacity_not_higher_than_replacement :
    ¬ (gridStyleFunction "red" exReplRowG).fillOpacity
        < (gridStyleFunction "red" exMainRowG).fillOpacity := by
  decide

/-! ## Error surface claims -/

/-- Claim C8 (amended): stage failures do not surface as typed errors
naming the offending key. A failed file read is swallowed by the blanket
handler of load_data and becomes the bare sentinel none; a duplicate
(station_name, grid_id) join key does not abort the join but silently
duplicates the affected centroid row; an unmapped cluster_type does not
abort styling but silently receives the main style. Only the load failure
prevents a document from being produced, because main skips rendering on
the none sentinel. -/
theorem failures_not_surfaced_as_typed_errors :
    load_data none = none
      ∧ exOneCentroidFrame.rows.length = 1
      ∧ (joinStage exOneCentroidFrame exDupGridFrame).rows.length = 2
      ∧ gridStyleFunction "red" exBogusRow
          = gridStyleFunction "red" { exBogusRow with cluster_type := "main" } := by
  refine ⟨rfl, rfl, by decide, by decide⟩

/-- Counterexample for C8 as stated: a broken join key (a duplicated
(station_name, grid_id) in the grid cells) does not abort the build with a
typed error; the join returns normally and turns one centroid row into
two. -/
theorem broken_join_key_silently_duplicates :
    exOneCentroidFrame.rows.length = 1
      ∧ (joinStage exOneCentroidFrame exDupGridFrame).rows.length = 2 := by
  refine ⟨rfl, by decide⟩

/-! ## Buffer filtering in load_data -/

/-- Claim C10: load_data keeps exactly the coverage-buffer records with
buffer_km equal to 25; any record with a different buffer_km, whatever
values occur in the source collection, is discarded. -/
theorem load_data_keeps_only_25km_buffers (raw : RawData) (b : BufferRow) :
    b ∈ (load_data (some raw)).elim [] LoadedData.station_buffers
      ↔ b ∈ raw.station_buffers ∧ b.buffer_km = 25 := by
  simp [load_data, Option.elim, List.mem_filter]

/-! ## Map assembly lemmas -/

theorem buildGroups_fst_aux (station_locs : List StationLoc) (enum : EnumLayers) :
    ∀ (names : List String) (gs : List FeatureGroup) (c : String),
      (names.foldl (fun acc s => (acc.1 ++ [mkStationGroup s station_locs enum],
          stationColorOf station_locs s)) (gs, c)).1
        = gs ++ names.map (fun s => mkStationGroup s station_locs enum) := by
  intro names
  induction names with
  | nil => intro gs c; simp
  | cons a t ih =>
    intro gs c
    have h := ih (gs ++ [mkStationGroup a station_locs enum]) (stationColorOf station_locs a)
    simpa [List.foldl_cons, List.append_assoc] using h

theorem buildGroups_fst (names : List String) (station_locs : List StationLoc)
    (enum : EnumLayers) :
    (buildGroups names station_locs enum).1
      = names.map (fun s => mkStationGroup s station_locs enum) := by
  simpa using buildGroups_fst_aux station_locs enum names [] ""

theorem buildGroups_snd (names : List String) (station_locs : List StationLoc)
    (enum : EnumLayers) (h : names ≠ []) :
    (buildGroups names station_locs enum).2
      = stationColorOf station_locs (names.getLastD "") := by
  obtain ⟨L, b, rfl⟩ := (List.eq_nil_or_concat names).resolve_left h
  unfold buildGroups
  rw [List.concat_eq_append, List.foldl_append, List.getLastD_concat]
  rfl

theorem filterMap_extractGroup_comp {α : Type} (l : List α) (f : α → FeatureGroup) :
    l.filterMap (extractGroup ∘ MapChild.featureGroup ∘ f) = l.map f := by
  induction l with
  | nil => rfl
  | cons a t ih => simp [List.filterMap_cons, Function.comp, extractGroup, ih]

theorem filterMap_comp_none {α β γ : Type} (l : List α) (f : α → β) (p : β → Option γ)
    (h : ∀ a, p (f a) = none) : l.filterMap (p ∘ f) = [] := by
  induction l with
  | nil => rfl
  | cons a t ih => simp [List.filterMap_cons, Function.comp, h, ih]

theorem filter_comp_false {α β : Type} (l : List α) (f : α → β) (p : β → Bool)
    (h : ∀ a, p (f a) = false) : l.filter (p ∘ f) = [] := by
  induction l with
  | nil => rfl
  | cons a t ih => simp [List.filter_cons, Function.comp, h, ih]

theorem featureGroupsOf_create (names : List String) (locs : List StationLoc)
    (enum : EnumLayers) :
    featureGroupsOf (create_station_map names locs enum)
      = names.map (fun s =>
          mkStationGroup s (locs.filter (fun r => names.contains r.station_name)) enum) := by
  unfold featureGroupsOf create_station_map
  simp [List.filterMap_append, List.filterMap_cons, extractGroup, filterMap_extractGroup_comp,
        buildGroups_fst]

theorem legendEntriesOf_create (names : List String) (locs : List StationLoc)
    (enum : EnumLayers) :
    legendEntriesOf (create_station_map names locs enum)
      = buildLegend (locs.filter (fun r => names.contains r.station_name))
          enum.village_points := by
  unfold legendEntriesOf create_station_map
  simp [List.filterMap_append, List.filterMap_cons, extractLegend, filterMap_map_none]

theorem bufferKms_mkStationGroup (s : String) (sl : List StationLoc) (enum : EnumLayers) :
    (mkStationGroup s sl enum).children.filterMap extractBufferKm = [] := by
  unfold mkStationGroup
  simp [List.filterMap_cons, List.filterMap_append, extractBufferKm, filterMap_map_none]

theorem stationMarker_filter_mk (s : String) (sl : List StationLoc) (enum : EnumLayers) :
    ((mkStationGroup s sl enum).children.filter isStationMarkerChild).length = 1 := by
  unfold mkStationGroup
  simp [List.filter_cons, List.filter_append, isStationMarkerChild, filter_map_false]

theorem gridLayer_thunk_mk (s : String) (sl : List StationLoc) (enum : EnumLayers)
    (nm : String) (feats : List GridCellRow) (th : StyleThunk)
    (h : GroupChild.gridLayer nm feats th ∈ (mkStationGroup s sl enum).children) :
    th = StyleThunk.readsStationColorCell := by
  unfold mkStationGroup at h
  simp [List.mem_cons, List.mem_append, List.mem_map] at h
  exact h.2.2

/-! ## Buffer groups in the assembled document -/

/-- Claim C1 (amended): the assembled map document contains no
CoverageBuffer groups at all. create_station_map receives no buffer data
and emits none (its groups hold grid layers, centroid, village and station
markers only), and load_data discards every buffer whose buffer_km is not
25, so no buffer z-ordering exists in the document. -/
theorem no_buffer_groups_in_document (names : List String) (locs : List StationLoc)
    (enum : EnumLayers) (hpres : ∀ s ∈ names, ∃ r ∈ locs, r.station_name = s) :
    bufferGroupKms (create_station_map names locs enum) = [] := by
  unfold bufferGroupKms
  rw [featureGroupsOf_create, List.map_map]
  have hfun : ((fun g : FeatureGroup => g.children.filterMap extractBufferKm) ∘
      (fun s =>
        mkStationGroup s (locs.filter (fun r => names.contains r.station_name)) enum))
      = fun _ => ([] : List Nat) :=
    funext fun s =>
      bufferKms_mkStationGroup s (locs.filter (fun r => names.contains r.station_name)) enum
  rw [hfun, flatten_map_nil]

/-- Witness for C1 (amended) at a concrete selection. -/
theorem no_buffer_groups_in_document_witness :
    (∀ s ∈ (["A"] : List String), ∃ r ∈ exLocs, r.station_name = s)
      ∧ bufferGroupKms (create_station_map ["A"] exLocs exEnum) = [] :=
  ⟨by decide, no_buffer_groups_in_document ["A"] exLocs exEnum (by decide)⟩

/-- Counterexample for C1 as stated: station A is rendered (its feature
group is in the document), yet the ordered group list carries no buffer
group for any buffer_km value, in particular not one per value in
20, 25, 40, 60. -/
theorem buffer_groups_absent_for_rendered_station :
    (featureGroupsOf exDocA).map FeatureGroup.name = ["A"]
      ∧ bufferGroupKms exDocA = [] := by
  refine ⟨by decide, by decide⟩

/-! ## Station markers and layer toggling -/

/-- Claim C4 (amended): exactly one station marker is indeed added per
selected station, but inside that station feature group, which the layer
control makes toggleable — no marker is attached to the map outside the
groups, so toggling a station group off hides its station marker. -/
theorem station_markers_inside_toggleable_groups (names : List String)
    (locs : List StationLoc) (enum : EnumLayers)
    (hpres : ∀ s ∈ names, ∃ r ∈ locs, r.station_name = s) :
    topLevelMarkerCount (create_station_map names locs enum) = 0
      ∧ (featureGroupsOf (create_station_map names locs enum)).length = names.length
      ∧ ∀ g ∈ featureGroupsOf (create_station_map names locs enum),
          (g.children.filter isStationMarkerChild).length = 1 := by
  refine ⟨?_, ?_, ?_⟩
  · unfold topLevelMarkerCount create_station_map
    simp [List.filter_append, List.filter_cons, isTopLevelMarker, filter_comp_false,
          filter_map_false]
  · rw [featureGroupsOf_create, List.length_map]
  · intro g hg
    rw [featureGroupsOf_create] at hg
    obtain ⟨s, hs, rfl⟩ := List.mem_map.mp hg
    exact stationMarker_filter_mk s _ enum

/-- Witness for C4 (amended) at a concrete selection. -/
theorem station_markers_inside_toggleable_groups_witness :
    (∀ s ∈ (["A"] : List String), ∃ r ∈ exLocs, r.station_name = s)
      ∧ (topLevelMarkerCount (create_station_map ["A"] exLocs exEnum) = 0
          ∧ (featureGroupsOf (create_station_map ["A"] exLocs exEnum)).length
              = (["A"] : List String).length
          ∧ ∀ g ∈ featureGroupsOf (create_station_map ["A"] exLocs exEnum),
              (g.children.filter isStationMarkerChild).length = 1) :=
  ⟨by decide, station_markers_inside_toggleable_groups ["A"] exLocs exEnum (by decide)⟩

/-- Counterexample for C4 as stated: in the concrete document one station
marker exists, it sits inside a feature group, and toggling every group
off leaves no visible station marker. -/
theorem station_marker_hidden_by_layer_toggle :
    groupedStationMarkerCount exDocA = 1 ∧ visibleStationMarkerCount exDocA [] = 0 := by
  refine ⟨by decide, by decide⟩

/-! ## Legend village entry -/

theorem not_all_isNone_eq_any_isSome (l : List VillageRow) :
    (!(l.all fun v => v.geometry.isNone)) = l.any (fun v => v.geometry.isSome) := by
  induction l with
  | nil => rfl
  | cons a t ih => cases h : a.geometry <;> simp [h, Bool.not_and, ih]

/-- Claim C7 (amended): the legend village entry is present exactly once
iff the whole input VillagePoint collection is non-empty and has at least
one non-null geometry; the check at app.py line 105 reads the unfiltered
layer, so the entry does not depend on which stations are selected or on
what village markers are actually rendered. -/
theorem legend_village_entry_tracks_whole_layer (names : List String)
    (locs : List StationLoc) (enum : EnumLayers)
    (hpres : ∀ s ∈ names, ∃ r ∈ locs, r.station_name = s) :
    villageKeyCount (create_station_map names locs enum)
      = if !enum.village_points.isEmpty
            && enum.village_points.any (fun v => v.geometry.isSome) then 1 else 0 := by
  unfold villageKeyCount
  rw [legendEntriesOf_create]
  unfold buildLegend
  rw [not_all_isNone_eq_any_isSome]
  cases hcond : (!enum.village_points.isEmpty
      && enum.village_points.any fun v => v.geometry.isSome)
  · simp [hcond, List.filter_append, List.filter_cons, isVillageKey, filter_comp_false,
          filter_map_false]
  · simp [hcond, List.filter_append, List.filter_cons, isVillageKey, filter_comp_false,
          filter_map_false]

/-- Witness for C7 (amended) at a concrete selection whose village layer
has one non-null-geometry record. -/
theorem legend_village_entry_tracks_whole_layer_witness :
    (∀ s ∈ (["A"] : List String), ∃ r ∈ exLocs, r.station_name = s)
      ∧ villageKeyCount (create_station_map ["A"] exLocs exEnum)
          = if !exEnum.village_points.isEmpty
                && exEnum.village_points.any (fun v => v.geometry.isSome) then 1 else 0 :=
  ⟨by decide, legend_village_entry_tracks_whole_layer ["A"] exLocs exEnum (by decide)⟩

/-- Counterexample for C7 as stated: selecting only station A renders no
village marker (the single village point belongs to station B), yet the
legend still shows the village entry once. -/
theorem legend_village_entry_without_rendered_villages :
    villageKeyCount exDocA = 1 ∧ villageMarkerCount exDocA = 0 := by
  refine ⟨by decide, by decide⟩

/-! ## Late binding of the grid style closure -/

/-- Claim C9: the grid-cell style_function is a closure over the loop
variable station_color and is only invoked by the rendering backend after
the loop has finished, so for any selection of two or more stations every
grid layer of the document — whichever station it belongs to — is styled
with the color of the last processed station. -/
theorem create_station_map_grid_style_late_binding (names : List String)
    (locs : List StationLoc) (enum : EnumLayers)
    (h2 : 2 ≤ names.length)
    (hpres : ∀ s ∈ names, ∃ r ∈ locs, r.station_name = s) :
    ∀ g ∈ featureGroupsOf (create_station_map names locs enum),
      ∀ (nm : String) (feats : List GridCellRow) (th : StyleThunk),
        GroupChild.gridLayer nm feats th ∈ g.children →
        ∀ f : GridCellRow,
          evalStyleThunk th (create_station_map names locs enum).station_color_cell f
            = gridStyleFunction
                (stationColorOf (locs.filter (fun r => names.contains r.station_name))
                  (names.getLastD "")) f := by
  intro g hg nm feats th hth f
  have hne : names ≠ [] := by
    intro h
    subst h
    exact absurd h2 (by decide)
  have hth' : th = StyleThunk.readsStationColorCell := by
    rw [featureGroupsOf_create] at hg
    obtain ⟨s, hs, rfl⟩ := List.mem_map.mp hg
    exact gridLayer_thunk_mk s _ enum nm feats th hth
  have hcell : (create_station_map names locs enum).station_color_cell
      = stationColorOf (locs.filter (fun r => names.contains r.station_name))
          (names.getLastD "") := by
    show (buildGroups names (locs.filter (fun r => names.contains r.station_name)) enum).2
        = _
    exact buildGroups_snd names _ enum hne
  rw [hth', hcell]
  rfl

/-- Witness for C9: with the selection A then B, every grid layer of the
document is rendered with the color looked up for B (the last processed
station), including the layer of station A. -/
theorem create_station_map_grid_style_late_binding_witness :
    (2 ≤ (["A", "B"] : List String).length
      ∧ ∀ s ∈ (["A", "B"] : List String), ∃ r ∈ exLocs, r.station_name = s)
      ∧ ∀ g ∈ featureGroupsOf (create_station_map ["A", "B"] exLocs exEnum),
          ∀ (nm : String) (feats : List GridCellRow) (th : StyleThunk),
            GroupChild.gridLayer nm feats th ∈ g.children →
            ∀ f : GridCellRow,
              evalStyleThunk th (create_station_map ["A", "B"] exLocs exEnum).station_color_cell f
                = gridStyleFunction
                    (stationColorOf
                      (exLocs.filter
                        (fun r => (["A", "B"] : List String).contains r.station_name))
                      ((["A", "B"] : List String).getLastD "")) f :=
  ⟨⟨by decide, by decide⟩,
   create_station_map_grid_style_late_binding ["A", "B"] exLocs exEnum (by decide) (by decide)⟩
